import Mathlib

/-
Verification of the error-handling pipeline of a small Express application.

Source files embedded here:
  - src/utils/ApiError.ts   : ApiError and NotFoundError classes
  - src/utils/asyncWrapper.ts : asyncWrapper higher-order adapter
  - src/index.ts            : route registration, catch-all middleware and
                              error-formatting middleware

Modelling notes.  JavaScript error values are embedded as a structure
holding an optional numeric statusCode (absent for plain Error values),
a message and an optional stack string.  The stack captured by
Error.captureStackTrace at construction time is a runtime value, so the
constructors take it as an explicit parameter.  An asynchronous handler
is embedded as a function from the request to Except JsError (Option Resp):
Except.error e is a rejected promise carrying e, Except.ok (some r) is a
resolution after the handler emitted response r, and Except.ok none is a
resolution without any response having been emitted.  The Express dispatch
of the four registered middlewares (GET /protected, POST /post, the
catch-all, the error formatter) is embedded as runPipeline, which follows
their registration order in src/index.ts.
-/

namespace ErrorHandlingApp

/-- HTTP method of an incoming request. -/
inductive Method where
  | GET
  | POST
  | PUT
  | DELETE
deriving DecidableEq, Repr

/-- An incoming request: method, path and (opaque) body. -/
structure Req where
  method : Method
  path : String
  body : String
deriving DecidableEq, Repr

/-- A JavaScript error value as seen by the pipeline: statusCode is absent
(none) for plain Error values, message is the message property, and stack
is the captured diagnostic trace when one exists. -/
structure JsError where
  statusCode : Option Nat
  message : String
  stack : Option String
deriving DecidableEq, Repr

/-- StatusCodes.NOT_FOUND from the http-status-codes package. -/
def StatusCodes.NOT_FOUND : Nat := 404

/-- StatusCodes.BAD_REQUEST from the http-status-codes package. -/
def StatusCodes.BAD_REQUEST : Nat := 400

/-- The ApiError constructor from src/utils/ApiError.ts: stores the given
statusCode and message and captures the current stack trace (here supplied
as the parameter tr, since it is a runtime value). -/
def ApiError.make (statusCode : Nat) (message : String) (tr : String) : JsError :=
  { statusCode := some statusCode, message := message, stack := some tr }

/-- The NotFoundError constructor from src/utils/ApiError.ts: an ApiError
with StatusCodes.NOT_FOUND and a message derived from the supplied path. -/
def NotFoundError (path : String) (tr : String) : JsError :=
  ApiError.make StatusCodes.NOT_FOUND ("The requested path " ++ path ++ " not found!") tr

/-- The body of the error envelope sent by the error-formatting middleware
in src/index.ts. -/
structure ErrorBody where
  success : Bool
  message : String
  stack : Option String
deriving DecidableEq, Repr

/-- A response body: either the plain message object sent by the POST /post
handler, or the error envelope sent by the error-formatting middleware. -/
inductive Body where
  | messageOnly : String → Body
  | errorEnvelope : ErrorBody → Body
deriving DecidableEq, Repr

/-- An HTTP response: status code and body. -/
structure Resp where
  status : Nat
  body : Body
deriving DecidableEq, Repr

/-- The error-formatting middleware of src/index.ts (lines 33-41):
statusCode is err.statusCode || 500 (JavaScript falsiness: an absent field
or the number 0 both fall back to 500), and the body is
success false, message err.message, stack err.stack. -/
def errorHandler (err : JsError) : Resp :=
  { status :=
      match err.statusCode with
      | none => 500
      | some 0 => 500
      | some s => s,
    body := Body.errorEnvelope
      { success := false, message := err.message, stack := err.stack } }

/-- The error-formatting middleware viewed from an arbitrary build
environment.  The middleware in src/index.ts never reads process.env or any
other build configuration, so its behaviour is the same function of the
error value in every environment. -/
def errorHandlerInEnv (_nodeEnv : String) (err : JsError) : Resp :=
  errorHandler err

/-- The observable outcome of running one middleware on one request:
it emitted a response, it called next with an error value, it resolved
without doing either (the request hangs), or the failure escaped and the
process terminates (unhandled rejection leads to process.exit in
src/index.ts). -/
inductive MwResult where
  | sent : Resp → MwResult
  | nextErr : JsError → MwResult
  | hang : MwResult
  | crash : MwResult
deriving DecidableEq, Repr

/-- asyncWrapper from src/utils/asyncWrapper.ts:
Promise.resolve(handler(req, res, next)).catch(err => next(err)).
A rejection of the wrapped handler is forwarded by calling next with
exactly the rejection value; a resolution is passed through untouched
(the wrapper itself performs no action on success). -/
def asyncWrapper (handler : Req → Except JsError (Option Resp)) (req : Req) : MwResult :=
  match handler req with
  | Except.error e => MwResult.nextErr e
  | Except.ok (some r) => MwResult.sent r
  | Except.ok none => MwResult.hang

/-- customFunction from src/index.ts (lines 20-22): unconditionally throws
ApiError(StatusCodes.BAD_REQUEST, "This is just a bad request!"). -/
def customFunction (tr : String) : Except JsError Unit :=
  Except.error (ApiError.make StatusCodes.BAD_REQUEST "This is just a bad request!" tr)

/-- The GET /protected handler body from src/index.ts (lines 14-17):
await customFunction(); then the handler ends without emitting a response
(the subsequent throw is commented out in the source). -/
def protectedHandler (tr : String) (_req : Req) : Except JsError (Option Resp) := do
  let _ ← customFunction tr
  pure none

/-- The POST /post handler from src/index.ts (lines 24-29): logs the body
and sends status 200 with message Hello World from post!. -/
def postHandler (_req : Req) : Resp :=
  { status := 200, body := Body.messageOnly "Hello World from post!" }

/-- Whether a request matches the registered GET /protected route. -/
def matchesProtected (req : Req) : Bool :=
  req.method == Method.GET && req.path == "/protected"

/-- Whether a request matches the registered POST /post route. -/
def matchesPost (req : Req) : Bool :=
  req.method == Method.POST && req.path == "/post"

/-- The pipeline stages of src/index.ts that can be invoked for a request,
in registration order: the two route handlers, the catch-all middleware and
the error-formatting middleware. -/
inductive Stage where
  | routeProtected
  | routePost
  | catchAll
  | errorFormat
deriving DecidableEq, Repr

/-- Position of a stage in the registration order of src/index.ts.  The two
routes are both stage 1 (route matching), the catch-all is stage 2 and the
error formatter is stage 3. -/
def stageIndex : Stage → Nat
  | Stage.routeProtected => 1
  | Stage.routePost => 1
  | Stage.catchAll => 2
  | Stage.errorFormat => 3

/-- The outcome of dispatching one request through the whole pipeline:
the response emitted (if any), the error value forwarded to the
error-formatting middleware (if any), and the list of stages invoked,
in execution order. -/
structure RunResult where
  response : Option Resp
  forwarded : Option JsError
  invoked : List Stage
deriving DecidableEq, Repr

/-- Express dispatch of the middleware chain registered in src/index.ts,
in registration order: GET /protected (wrapped by asyncWrapper), then
POST /post, then the catch-all that forwards a NotFoundError for the
request path, then the error-formatting middleware, which consumes any
forwarded error.  tr is the stack trace the runtime captures for an error
constructed while serving this request. -/
def runPipeline (req : Req) (tr : String) : RunResult :=
  if matchesProtected req then
    match asyncWrapper (protectedHandler tr) req with
    | MwResult.nextErr e =>
        { response := some (errorHandler e), forwarded := some e,
          invoked := [Stage.routeProtected, Stage.errorFormat] }
    | MwResult.sent r =>
        { response := some r, forwarded := none, invoked := [Stage.routeProtected] }
    | MwResult.hang =>
        { response := none, forwarded := none, invoked := [Stage.routeProtected] }
    | MwResult.crash =>
        { response := none, forwarded := none, invoked := [Stage.routeProtected] }
  else if matchesPost req then
    { response := some (postHandler req), forwarded := none, invoked := [Stage.routePost] }
  else
    { response := some (errorHandler (NotFoundError req.path tr)),
      forwarded := some (NotFoundError req.path tr),
      invoked := [Stage.catchAll, Stage.errorFormat] }

/-- Claim C1: for every handler wrapped by asyncWrapper, if the wrapped
computation fails with value e, the wrapper forwards exactly e to the
error-formatting stage by a single next call and the process does not
terminate; if the computation succeeds, the wrapper performs no action of
its own (the handler outcome passes through untouched). -/
theorem asyncWrapper_forwards_failure_once
    (handler : Req → Except JsError (Option Resp)) (req : Req) :
    (∀ e, handler req = Except.error e → asyncWrapper handler req = MwResult.nextErr e) ∧
    asyncWrapper handler req ≠ MwResult.crash ∧
    (∀ r, handler req = Except.ok (some r) → asyncWrapper handler req = MwResult.sent r) ∧
    (handler req = Except.ok none → asyncWrapper handler req = MwResult.hang) := by
  refine ⟨fun e he => ?_, ?_, fun r hr => ?_, fun hn => ?_⟩
  · simp [asyncWrapper, he]
  · unfold asyncWrapper
    rcases handler req with e | v
    · simp
    · rcases v with _ | r <;> simp
  · simp [asyncWrapper, hr]
  · simp [asyncWrapper, hn]

/-- Witness for C1 at a concrete wrapped handler and request: the
GET /protected handler rejects with ApiError(400, ...) and the wrapper
forwards exactly that value. -/
theorem asyncWrapper_forwards_failure_once_witness :
    asyncWrapper (protectedHandler "tr0") ⟨Method.GET, "/protected", ""⟩ =
      MwResult.nextErr (ApiError.make 400 "This is just a bad request!" "tr0") :=
  (asyncWrapper_forwards_failure_once (protectedHandler "tr0")
      ⟨Method.GET, "/protected", ""⟩).1 _ rfl

/-- Claim C2: an ApiError constructed with statusCode S and message M and
handed to the error-formatting middleware yields a response with HTTP
status S and a body whose message field equals M.  (S ranges over the
truthy status codes of the data model; S = 0 would be JavaScript-falsy and
fall back to 500, the case settled by C4.) -/
theorem apiError_formats_to_own_status (S : Nat) (M : String) (tr : String)
    (h : 0 < S) :
    (errorHandler (ApiError.make S M tr)).status = S ∧
    (errorHandler (ApiError.make S M tr)).body =
      Body.errorEnvelope { success := false, message := M, stack := some tr } := by
  cases S with
  | zero => exact absurd h (by simp)
  | succ n => exact ⟨rfl, rfl⟩

/-- Witness for C2 at statusCode 400 and a concrete message. -/
theorem apiError_formats_to_own_status_witness :
    (errorHandler (ApiError.make 400 "bad" "tr0")).status = 400 ∧
    (errorHandler (ApiError.make 400 "bad" "tr0")).body =
      Body.errorEnvelope { success := false, message := "bad", stack := some "tr0" } :=
  apiError_formats_to_own_status 400 "bad" "tr0" (by decide)

/-- Claim C3: a request matching no registered route is handled by the
catch-all, which constructs a NotFoundError from the request path; the
NotFoundError carries statusCode 404 and the resulting response has status
404 with message "The requested path P not found!" for the request path P. -/
theorem unmatched_route_gives_404 (req : Req) (tr : String)
    (h1 : matchesProtected req = false) (h2 : matchesPost req = false) :
    (NotFoundError req.path tr).statusCode = some 404 ∧
    (runPipeline req tr).forwarded = some (NotFoundError req.path tr) ∧
    (runPipeline req tr).response = some
      { status := 404,
        body := Body.errorEnvelope
          { success := false,
            message := "The requested path " ++ req.path ++ " not found!",
            stack := some tr } } := by
  refine ⟨rfl, ?_, ?_⟩ <;> simp [runPipeline, h1, h2, errorHandler, NotFoundError, ApiError.make,
    StatusCodes.NOT_FOUND]

/-- Witness for C3 at the concrete unmatched request GET /unknown-path. -/
theorem unmatched_route_gives_404_witness :
    (runPipeline ⟨Method.GET, "/unknown-path", ""⟩ "tr0").response = some
      { status := 404,
        body := Body.errorEnvelope
          { success := false,
            message := "The requested path /unknown-path not found!",
            stack := some "tr0" } } :=
  (unmatched_route_gives_404 ⟨Method.GET, "/unknown-path", ""⟩ "tr0"
    (by decide) (by decide)).2.2

/-- Claim C4: an error value whose statusCode is absent or falsy (none, or
the number 0) is formatted with status 500 and its message surfaced as-is. -/
theorem missing_statusCode_gives_500 (e : JsError)
    (h : e.statusCode = none ∨ e.statusCode = some 0) :
    (errorHandler e).status = 500 ∧
    (errorHandler e).body =
      Body.errorEnvelope { success := false, message := e.message, stack := e.stack } := by
  rcases h with h | h <;> simp [errorHandler, h]

/-- Witness for C4 at a concrete plain Error value without statusCode. -/
theorem missing_statusCode_gives_500_witness :
    (errorHandler { statusCode := none, message := "boom", stack := none }).status = 500 :=
  (missing_statusCode_gives_500 { statusCode := none, message := "boom", stack := none }
    (Or.inl rfl)).1

/-- Claim C5: a GET /protected request, whose wrapped handler throws
ApiError(400, "This is just a bad request!"), yields a response of status
400 with body success false, that message, and the captured stack, which is
non-empty whenever the runtime-captured trace is. -/
theorem get_protected_gives_400 (b : String) (tr : String) (h : tr ≠ "") :
    (runPipeline ⟨Method.GET, "/protected", b⟩ tr).response = some
      { status := 400,
        body := Body.errorEnvelope
          { success := false,
            message := "This is just a bad request!",
            stack := some tr } } ∧
    ∃ s, (ApiError.make 400 "This is just a bad request!" tr).stack = some s ∧ s ≠ "" := by
  exact ⟨rfl, tr, rfl, h⟩

/-- Witness for C5 at a concrete non-empty captured trace. -/
theorem get_protected_gives_400_witness :
    (runPipeline ⟨Method.GET, "/protected", ""⟩ "Error: This is just a bad request!").response =
      some
      { status := 400,
        body := Body.errorEnvelope
          { success := false,
            message := "This is just a bad request!",
            stack := some "Error: This is just a bad request!" } } :=
  (get_protected_gives_400 "" "Error: This is just a bad request!" (by decide)).1

/-- Claim C6: every POST /post request, whatever its body, yields status
200 with body message "Hello World from post!". -/
theorem post_gives_hello (b : String) (tr : String) :
    (runPipeline ⟨Method.POST, "/post", b⟩ tr).response =
      some { status := 200, body := Body.messageOnly "Hello World from post!" } := by
  rfl

/-- Claim C7: every error value consumed by the error-formatting stage is
exactly one of the ApiError values constructed in the program (which all
carry a valid HTTP status integer), reaches the formatter unchanged, and
the formatter reads its statusCode, message and stack fields as
constructed: nothing in the pipeline mutates the error between its
construction and its consumption. -/
theorem apiError_valid_and_immutable (req : Req) (tr : String) (e : JsError)
    (h : (runPipeline req tr).forwarded = some e) :
    (e = ApiError.make StatusCodes.BAD_REQUEST "This is just a bad request!" tr ∨
      e = NotFoundError req.path tr) ∧
    (∃ s, e.statusCode = some s ∧ 100 ≤ s ∧ s ≤ 599 ∧ (errorHandler e).status = s) ∧
    (runPipeline req tr).response = some (errorHandler e) ∧
    (errorHandler e).body = Body.errorEnvelope
      { success := false, message := e.message, stack := e.stack } := by
  have hw : asyncWrapper (protectedHandler tr) req =
      MwResult.nextErr (ApiError.make StatusCodes.BAD_REQUEST "This is just a bad request!" tr) :=
    rfl
  by_cases hp : matchesProtected req
  · have hf : (runPipeline req tr).forwarded =
        some (ApiError.make StatusCodes.BAD_REQUEST "This is just a bad request!" tr) := by
      simp [runPipeline, hp, hw]
    have he : e = ApiError.make StatusCodes.BAD_REQUEST "This is just a bad request!" tr := by
      rw [hf] at h
      exact (Option.some.inj h).symm
    subst he
    refine ⟨Or.inl rfl, ⟨400, rfl, by omega, by omega, rfl⟩, ?_, rfl⟩
    simp [runPipeline, hp, hw]
  · by_cases hq : matchesPost req
    · have hf : (runPipeline req tr).forwarded = none := by
        simp [runPipeline, hp, hq]
      rw [hf] at h
      exact absurd h (by simp)
    · have hf : (runPipeline req tr).forwarded = some (NotFoundError req.path tr) := by
        simp [runPipeline, hp, hq]
      have he : e = NotFoundError req.path tr := by
        rw [hf] at h
        exact (Option.some.inj h).symm
      subst he
      refine ⟨Or.inr rfl, ⟨404, rfl, by omega, by omega, rfl⟩, ?_, rfl⟩
      simp [runPipeline, hp, hq]

/-- Witness for C7 at a concrete unmatched request: the forwarded
NotFoundError is consumed unchanged by the formatter. -/
theorem apiError_valid_and_immutable_witness :
    (runPipeline ⟨Method.GET, "/x", ""⟩ "t").response =
      some (errorHandler (NotFoundError "/x" "t")) :=
  (apiError_valid_and_immutable ⟨Method.GET, "/x", ""⟩ "t" (NotFoundError "/x" "t")
    (by decide)).2.2.1

/-- Counterexample to claim C8 as stated: the error-formatting middleware
never consults the build environment, so even in a production-style build
(nodeEnv "production") the stack field is present in the error response;
its inclusion is unconditional, not conditional on build or environment
policy. -/
theorem stack_present_in_production_build :
    (errorHandlerInEnv "production" (NotFoundError "/nope" "trace-A")).body ≠
      Body.errorEnvelope
        { success := false,
          message := "The requested path /nope not found!",
          stack := none } ∧
    (errorHandlerInEnv "production" (NotFoundError "/nope" "trace-A")).body =
      Body.errorEnvelope
        { success := false,
          message := "The requested path /nope not found!",
          stack := some "trace-A" } := by
  exact ⟨by decide, by decide⟩

/-- Claim C8 amended: in every error response the body has success false
and message equal to the message of the error; the stack field is filled
from the stack of the error unconditionally, independent of any build or
environment setting. -/
theorem errorResponse_envelope (nodeEnv : String) (e : JsError) :
    (errorHandlerInEnv nodeEnv e).body =
      Body.errorEnvelope { success := false, message := e.message, stack := e.stack } :=
  rfl

/-- Claim C9: within one request the invoked stages appear in the strict
registration order (route matching, then catch-all, then error
formatting), the error-formatting stage runs at most once per request, and
the catch-all never runs when some route matched. -/
theorem stages_strictly_ordered (req : Req) (tr : String) :
    List.Pairwise (fun a b => stageIndex a < stageIndex b) (runPipeline req tr).invoked ∧
    (runPipeline req tr).invoked.count Stage.errorFormat ≤ 1 ∧
    (matchesProtected req = true ∨ matchesPost req = true →
      (runPipeline req tr).invoked.count Stage.catchAll = 0) := by
  have hw : asyncWrapper (protectedHandler tr) req =
      MwResult.nextErr (ApiError.make StatusCodes.BAD_REQUEST "This is just a bad request!" tr) :=
    rfl
  by_cases hp : matchesProtected req
  · have hi : (runPipeline req tr).invoked = [Stage.routeProtected, Stage.errorFormat] := by
      simp [runPipeline, hp, hw]
    rw [hi]
    exact ⟨by decide, by decide, fun _ => by decide⟩
  · by_cases hq : matchesPost req
    · have hi : (runPipeline req tr).invoked = [Stage.routePost] := by
        simp [runPipeline, hp, hq]
      rw [hi]
      exact ⟨by decide, by decide, fun _ => by decide⟩
    · have hi : (runPipeline req tr).invoked = [Stage.catchAll, Stage.errorFormat] := by
        simp [runPipeline, hp, hq]
      rw [hi]
      refine ⟨by decide, by decide, fun hor => ?_⟩
      rcases hor with h1 | h1 <;> simp_all

/-- Witness for C9 at the concrete matched request POST /post: the
catch-all stage is never invoked for a matched route. -/
theorem stages_strictly_ordered_witness :
    (runPipeline ⟨Method.POST, "/post", ""⟩ "t").invoked.count Stage.catchAll = 0 :=
  (stages_strictly_ordered ⟨Method.POST, "/post", ""⟩ "t").2.2 (Or.inr (by decide))

/-- Claim C10: for every GET /protected request the handler computation
unconditionally fails: customFunction always throws ApiError(400, "This is
just a bad request!"), the wrapped handler never emits a response of its
own, and the pipeline response for /protected always has status 400, never
200. -/
theorem protected_success_unreachable (tr : String) (req : Req)
    (h : matchesProtected req = true) :
    customFunction tr =
      Except.error (ApiError.make StatusCodes.BAD_REQUEST "This is just a bad request!" tr) ∧
    (∀ r, asyncWrapper (protectedHandler tr) req ≠ MwResult.sent r) ∧
    (runPipeline req tr).response =
      some (errorHandler (ApiError.make StatusCodes.BAD_REQUEST "This is just a bad request!" tr)) ∧
    (errorHandler (ApiError.make StatusCodes.BAD_REQUEST
      "This is just a bad request!" tr)).status = 400 := by
  have hw : asyncWrapper (protectedHandler tr) req =
      MwResult.nextErr (ApiError.make StatusCodes.BAD_REQUEST "This is just a bad request!" tr) :=
    rfl
  refine ⟨rfl, fun r hc => ?_, ?_, rfl⟩
  · rw [hw] at hc
    cases hc
  · simp [runPipeline, h, hw]

/-- Witness for C10 at a concrete GET /protected request: the wrapped
handler does not emit a 200 success response. -/
theorem protected_success_unreachable_witness :
    asyncWrapper (protectedHandler "t") ⟨Method.GET, "/protected", ""⟩ ≠
      MwResult.sent { status := 200, body := Body.messageOnly "ok" } :=
  (protected_success_unreachable "t" ⟨Method.GET, "/protected", ""⟩ (by decide)).2.1 _

end ErrorHandlingApp
